import Mathlib

/-!
Verification of the msm-energy-erp-dashboard data-model operations.

Shallow embedding conventions:
* Django `DecimalField` and `FloatField` values are modelled as exact
  rationals (`ℚ`); the claims under study are about the arithmetic the
  code performs, not about representation-level rounding.
* Saving a model instance is modelled by returning the updated record
  (and, where the code creates a related row, that row as well).
* Python string enumerations (transaction types, account categories,
  statuses) are modelled as `String`.
-/

namespace ERP

/-! ## Inventory: `Material`, `StockMovement` (src/inventory/models.py) -/

/-- `Material` model: the fields used by `update_stock`, `stock_status`
and `needs_reorder`. -/
structure Material where
  current_stock : ℚ
  minimum_stock_level : ℚ
  maximum_stock_level : ℚ
  reorder_point : ℚ
  deriving Repr, DecidableEq

/-- `StockMovement` model: the fields `Material.update_stock` fills in when
it creates the movement row. -/
structure StockMovement where
  transaction_type : String
  quantity : ℚ
  previous_stock : ℚ
  current_stock : ℚ
  reference : Option String
  deriving Repr, DecidableEq

/-- The inbound transaction types of `Material.update_stock`
(`['receipt', 'production_receipt', 'adjustment_in']`). -/
def inboundTypes : List String := ["receipt", "production_receipt", "adjustment_in"]

/-- The outbound transaction types of `Material.update_stock`
(`['issue', 'production_issue', 'adjustment_out', 'sale']`). -/
def outboundTypes : List String := ["issue", "production_issue", "adjustment_out", "sale"]

/-- `Material.stock_status` property (src/inventory/models.py lines 99-109). -/
def Material.stock_status (m : Material) : String :=
  if m.current_stock ≤ 0 then "out_of_stock"
  else if m.current_stock ≤ m.minimum_stock_level then "low_stock"
  else if m.current_stock ≥ m.maximum_stock_level then "overstock"
  else "normal"

/-- `Material.update_stock` (src/inventory/models.py lines 116-135): adjusts
`current_stock` according to the transaction type, saves the material and
creates exactly one `StockMovement` row.  The returned pair is the saved
material together with the created movement. -/
def Material.update_stock (m : Material) (quantity : ℚ) (transaction_type : String)
    (reference : Option String) : Material × StockMovement :=
  let old_stock := m.current_stock
  let new_stock :=
    if transaction_type ∈ inboundTypes then old_stock + quantity
    else if transaction_type ∈ outboundTypes then old_stock - quantity
    else old_stock
  let m' : Material := { m with current_stock := new_stock }
  (m', { transaction_type := transaction_type
         quantity := quantity
         previous_stock := old_stock
         current_stock := m'.current_stock
         reference := reference })

/-! ### Theorems about `Material.update_stock` -/

/-- The inbound and outbound type lists of `update_stock` are disjoint. -/
theorem outbound_not_inbound (t : String) (h : t ∈ outboundTypes) : t ∉ inboundTypes := by
  intro hin
  simp only [inboundTypes, outboundTypes, List.mem_cons, List.not_mem_nil, or_false] at h hin
  rcases hin with h1 | h1 | h1 <;> rw [h1] at h <;> exact absurd h (by decide)

/-- **C1**: for every material and every call to `update_stock(quantity,
transaction_type, reference)`: an inbound type (`receipt`,
`production_receipt`, `adjustment_in`) adds `quantity` to `current_stock`,
an outbound type (`issue`, `production_issue`, `adjustment_out`, `sale`)
subtracts it, and in every case exactly one `StockMovement` is created whose
`previous_stock` is the stock before the call and whose `current_stock` is
the stock after the call. -/
theorem update_stock_running_balance_ledger (m : Material) (q : ℚ) (t : String)
    (ref : Option String) :
    (t ∈ inboundTypes →
      (m.update_stock q t ref).1.current_stock = m.current_stock + q) ∧
    (t ∈ outboundTypes →
      (m.update_stock q t ref).1.current_stock = m.current_stock - q) ∧
    (m.update_stock q t ref).2.previous_stock = m.current_stock ∧
    (m.update_stock q t ref).2.current_stock = (m.update_stock q t ref).1.current_stock := by
  refine ⟨fun hin => ?_, fun hout => ?_, rfl, rfl⟩
  · simp [Material.update_stock, hin]
  · exact (by simp [Material.update_stock, outbound_not_inbound t hout, hout])

theorem update_stock_running_balance_ledger_witness :
    ("receipt" ∈ inboundTypes ∧
      ((⟨100, 10, 500, 20⟩ : Material).update_stock 7 "receipt" none).1.current_stock
        = (100 : ℚ) + 7) ∧
    ("sale" ∈ outboundTypes ∧
      ((⟨100, 10, 500, 20⟩ : Material).update_stock 7 "sale" none).1.current_stock
        = (100 : ℚ) - 7) := by
  refine ⟨⟨by decide, ?_⟩, ⟨by decide, ?_⟩⟩
  · exact (update_stock_running_balance_ledger ⟨100, 10, 500, 20⟩ 7 "receipt" none).1
      (by decide)
  · exact (update_stock_running_balance_ledger ⟨100, 10, 500, 20⟩ 7 "sale" none).2.1
      (by decide)

/-- **C8**: for a transaction type handled by neither branch (for example
`transfer_in`, `transfer_out` or `return`), `update_stock` leaves
`current_stock` unchanged yet still creates a `StockMovement` whose
`previous_stock` equals the (unchanged) `current_stock`. -/
theorem update_stock_unhandled_type_zero_effect (m : Material) (q : ℚ) (t : String)
    (ref : Option String) (hin : t ∉ inboundTypes) (hout : t ∉ outboundTypes) :
    (m.update_stock q t ref).1.current_stock = m.current_stock ∧
    (m.update_stock q t ref).2.previous_stock = (m.update_stock q t ref).2.current_stock ∧
    (m.update_stock q t ref).2.previous_stock = m.current_stock := by
  refine ⟨?_, ?_, rfl⟩ <;> simp [Material.update_stock, hin, hout]

theorem update_stock_unhandled_type_zero_effect_witness :
    "transfer_in" ∉ inboundTypes ∧ "transfer_in" ∉ outboundTypes ∧
    ((⟨100, 10, 500, 20⟩ : Material).update_stock 7 "transfer_in" none).1.current_stock
      = (100 : ℚ) :=
  ⟨by decide, by decide,
    (update_stock_unhandled_type_zero_effect ⟨100, 10, 500, 20⟩ 7 "transfer_in" none
      (by decide) (by decide)).1⟩

/-- **C9**: `update_stock` imposes no lower bound on stock: an outbound call
with `quantity > current_stock` is not rejected, the resulting (negative)
stock is stored in the material and in the movement row, and `stock_status`
then reports `out_of_stock`; moreover `stock_status` returns `out_of_stock`
exactly when `current_stock ≤ 0`. -/
theorem update_stock_no_lower_bound (m : Material) (q : ℚ) (t : String)
    (ref : Option String) (hout : t ∈ outboundTypes) (hq : m.current_stock < q) :
    (m.update_stock q t ref).1.current_stock = m.current_stock - q ∧
    (m.update_stock q t ref).1.current_stock < 0 ∧
    (m.update_stock q t ref).2.current_stock = m.current_stock - q ∧
    (m.update_stock q t ref).1.stock_status = "out_of_stock" ∧
    (∀ m' : Material, m'.stock_status = "out_of_stock" ↔ m'.current_stock ≤ 0) := by
  have hdisj : t ∉ inboundTypes := outbound_not_inbound t hout
  have hstock : (m.update_stock q t ref).1.current_stock = m.current_stock - q := by
    simp [Material.update_stock, hdisj, hout]
  have hneg : (m.update_stock q t ref).1.current_stock < 0 := by
    rw [hstock]; linarith
  have hiff : ∀ m' : Material, m'.stock_status = "out_of_stock" ↔ m'.current_stock ≤ 0 := by
    intro m'
    by_cases h0 : m'.current_stock ≤ 0
    · simp [Material.stock_status, h0]
    · by_cases h1 : m'.current_stock ≤ m'.minimum_stock_level
      · simp [Material.stock_status, h0, h1]
      · by_cases h2 : m'.current_stock ≥ m'.maximum_stock_level
        · simp [Material.stock_status, h0, h1, h2]
        · simp [Material.stock_status, h0, h1, h2]
  refine ⟨hstock, hneg, ?_, ?_, hiff⟩
  · simp [Material.update_stock, hdisj, hout]
  · exact (hiff _).mpr (le_of_lt hneg)

theorem update_stock_no_lower_bound_witness :
    "sale" ∈ outboundTypes ∧ (100 : ℚ) < 150 ∧
    ((⟨100, 10, 500, 20⟩ : Material).update_stock 150 "sale" none).1.stock_status
      = "out_of_stock" :=
  ⟨by decide, by norm_num,
    (update_stock_no_lower_bound ⟨100, 10, 500, 20⟩ 150 "sale" none (by decide)
      (by norm_num)).2.2.2.1⟩

/-! ## Sales and purchase orders (src/sales/models.py, src/inventory/models.py)

`SalesOrder.calculate_totals` and `PurchaseOrder.calculate_totals` have
identical bodies; each is embedded separately, faithful to its own source. -/

/-- A line item as seen by `calculate_totals`: its stored `line_total` and
its `is_active` flag (orders filter on `is_active=True`). -/
structure OrderLine where
  line_total : ℚ
  is_active : Bool
  deriving Repr, DecidableEq

/-- `SalesOrder` model: the monetary roll-up fields. -/
structure SalesOrder where
  subtotal : ℚ
  tax_amount : ℚ
  discount_amount : ℚ
  total_amount : ℚ
  deriving Repr, DecidableEq

/-- `PurchaseOrder` model: the monetary roll-up fields. -/
structure PurchaseOrder where
  subtotal : ℚ
  tax_amount : ℚ
  discount_amount : ℚ
  total_amount : ℚ
  deriving Repr, DecidableEq

/-- `SalesOrder.calculate_totals` (src/sales/models.py lines 151-159):
subtotal is the sum of `line_total` over the active line items, tax is 18%
of the subtotal, total is subtotal + tax - discount. -/
def SalesOrder.calculate_totals (o : SalesOrder) (items : List OrderLine) : SalesOrder :=
  let line_items := items.filter (·.is_active)
  let subtotal := (line_items.map (·.line_total)).sum
  let tax_amount := subtotal * (18 / 100)
  { o with
    subtotal := subtotal
    tax_amount := tax_amount
    total_amount := subtotal + tax_amount - o.discount_amount }

/-- `PurchaseOrder.calculate_totals` (src/inventory/models.py lines
231-239): same computation as the sales-order version. -/
def PurchaseOrder.calculate_totals (o : PurchaseOrder) (items : List OrderLine) : PurchaseOrder :=
  let line_items := items.filter (·.is_active)
  let subtotal := (line_items.map (·.line_total)).sum
  let tax_amount := subtotal * (18 / 100)
  { o with
    subtotal := subtotal
    tax_amount := tax_amount
    total_amount := subtotal + tax_amount - o.discount_amount }

/-- Sum of `line_total` over the active line items, as both
`calculate_totals` implementations compute it. -/
def activeSubtotal (items : List OrderLine) : ℚ :=
  ((items.filter (·.is_active)).map (·.line_total)).sum

/-- **C2**: for every sales order and every purchase order,
`calculate_totals` sets `subtotal` to the sum of `line_total` over active
line items, `tax_amount` to exactly 18% of that subtotal, and
`total_amount` to subtotal + tax - discount; with no active line items the
subtotal, the tax and their sum are all zero. -/
theorem calculate_totals_rollup (so : SalesOrder) (po : PurchaseOrder)
    (items : List OrderLine) :
    ((so.calculate_totals items).subtotal = activeSubtotal items ∧
      (so.calculate_totals items).tax_amount = activeSubtotal items * (18 / 100) ∧
      (so.calculate_totals items).total_amount =
        (so.calculate_totals items).subtotal + (so.calculate_totals items).tax_amount
          - so.discount_amount) ∧
    ((po.calculate_totals items).subtotal = activeSubtotal items ∧
      (po.calculate_totals items).tax_amount = activeSubtotal items * (18 / 100) ∧
      (po.calculate_totals items).total_amount =
        (po.calculate_totals items).subtotal + (po.calculate_totals items).tax_amount
          - po.discount_amount) ∧
    (items.filter (·.is_active) = [] →
      (so.calculate_totals items).subtotal = 0 ∧
      (so.calculate_totals items).tax_amount = 0 ∧
      (so.calculate_totals items).subtotal + (so.calculate_totals items).tax_amount = 0 ∧
      (po.calculate_totals items).subtotal = 0 ∧
      (po.calculate_totals items).tax_amount = 0 ∧
      (po.calculate_totals items).subtotal + (po.calculate_totals items).tax_amount = 0) := by
  refine ⟨⟨rfl, rfl, rfl⟩, ⟨rfl, rfl, rfl⟩, fun h => ?_⟩
  simp [SalesOrder.calculate_totals, PurchaseOrder.calculate_totals, h]

theorem calculate_totals_rollup_witness :
    ([(⟨100, false⟩ : OrderLine)].filter (·.is_active) = []) ∧
    ((⟨0, 0, 5, 0⟩ : SalesOrder).calculate_totals [⟨100, false⟩]).subtotal = 0 ∧
    ((⟨0, 0, 5, 0⟩ : PurchaseOrder).calculate_totals [⟨100, false⟩]).tax_amount = 0 := by
  refine ⟨by decide, ?_, ?_⟩
  · exact ((calculate_totals_rollup ⟨0, 0, 5, 0⟩ ⟨0, 0, 5, 0⟩ [⟨100, false⟩]).2.2
      (by decide)).1
  · exact ((calculate_totals_rollup ⟨0, 0, 5, 0⟩ ⟨0, 0, 5, 0⟩ [⟨100, false⟩]).2.2
      (by decide)).2.2.2.2.1

/-! ## Invoice (src/sales/models.py) -/

/-- `Invoice` model: the payment-tracking fields used by `mark_as_paid`. -/
structure Invoice where
  total_amount : ℚ
  paid_amount : ℚ
  status : String
  deriving Repr, DecidableEq

/-- `Invoice.outstanding_amount` property (src/sales/models.py lines
302-304). -/
def Invoice.outstanding_amount (inv : Invoice) : ℚ :=
  inv.total_amount - inv.paid_amount

/-- `Invoice.mark_as_paid` (src/sales/models.py lines 310-318): with
`amount = none` (Python default `None`) it pays the outstanding amount. -/
def Invoice.mark_as_paid (inv : Invoice) (amount : Option ℚ) : Invoice :=
  let amt := match amount with
    | none => inv.outstanding_amount
    | some a => a
  let inv' := { inv with paid_amount := inv.paid_amount + amt }
  if inv'.paid_amount ≥ inv'.total_amount then { inv' with status := "paid" } else inv'

/-- **C10**: calling `mark_as_paid` with no amount sets `paid_amount` to
exactly `total_amount` (also from an overpaid or partially paid state) and
sets the status to `paid`; a second no-argument call changes nothing. -/
theorem mark_as_paid_no_argument (inv : Invoice) :
    (inv.mark_as_paid none).paid_amount = inv.total_amount ∧
    (inv.mark_as_paid none).status = "paid" ∧
    (inv.mark_as_paid none).mark_as_paid none = inv.mark_as_paid none := by
  have hpaid : inv.paid_amount + inv.outstanding_amount = inv.total_amount := by
    unfold Invoice.outstanding_amount; ring
  have h1 : inv.mark_as_paid none =
      { inv with paid_amount := inv.total_amount, status := "paid" } := by
    unfold Invoice.mark_as_paid
    simp only [hpaid, ge_iff_le, le_refl, if_true]
  refine ⟨by rw [h1], by rw [h1], ?_⟩
  rw [h1]
  unfold Invoice.mark_as_paid Invoice.outstanding_amount
  simp

/-! ## Purchase-order line items and the `Decimal * float` slip (C6)

`PurchaseOrderLineItem.save` computes
`discounted_price = unit_price * (1 - discount_percentage / 100)` (a Python
`Decimal`, since both model fields are `DecimalField`s) and then
`line_total = discounted_price * quantity_ordered`.  `quantity_ordered` is
a `FloatField`, i.e. a Python `float` (always so after a round-trip through
the database), and in Python multiplying a `Decimal` by a `float` raises
`TypeError`.  Only a plain `int` quantity multiplies cleanly.  The numeric
value model below captures exactly this dynamic-typing behaviour; the
numeric values themselves stay exact.  -/

/-- A Python number as stored in `quantity_ordered`: either an `int`
(assigned directly in code) or a `float` (a `FloatField` value, always the
case after loading from the database). -/
inductive PyNum where
  | pint (n : ℤ)
  | pfloat (q : ℚ)
  deriving Repr, DecidableEq

/-- Python multiplication of a `Decimal` by a `PyNum`:
`Decimal * int` succeeds, `Decimal * float` raises `TypeError`
(modelled as `none`). -/
def decimalMul (d : ℚ) : PyNum → Option ℚ
  | .pint n => some (d * n)
  | .pfloat _ => none

/-- `PurchaseOrderLineItem` model: the fields `save` reads and writes. -/
structure PurchaseOrderLineItem where
  quantity_ordered : PyNum
  unit_price : ℚ
  discount_percentage : ℚ
  line_total : ℚ
  deriving Repr, DecidableEq

/-- `PurchaseOrderLineItem.save` (src/inventory/models.py lines 268-275):
computes `line_total` from the discounted unit price and the ordered
quantity, then recomputes the parent order totals.  Returns the saved line
item together with the recomputed parent order, or `none` when the
`Decimal * float` multiplication raises `TypeError`. -/
def PurchaseOrderLineItem.save (it : PurchaseOrderLineItem) (po : PurchaseOrder)
    (siblings : List OrderLine) : Option (PurchaseOrderLineItem × PurchaseOrder) :=
  let discounted_price := it.unit_price * (1 - it.discount_percentage / 100)
  match decimalMul discounted_price it.quantity_ordered with
  | none => none
  | some total =>
      let it' := { it with line_total := total }
      some (it', po.calculate_totals ({ line_total := it'.line_total, is_active := true }
        :: siblings))

/-- **C6** (claim as stated is false): a purchase-order line item whose
`quantity_ordered` holds a non-negative `float` value — here `2.5`, with
non-negative `unit_price = 100` and `discount_percentage = 0` — makes
`save` raise `TypeError` (`Decimal * float`), so the save does *not*
complete without error for all non-negative field values. -/
theorem purchase_line_save_float_raises :
    (PurchaseOrderLineItem.save
      ⟨.pfloat (5 / 2), 100, 0, 0⟩ ⟨0, 0, 0, 0⟩ []) = none := rfl

/-- **C6** (the part that holds): whenever the `Decimal * float` `TypeError`
is not hit — i.e. `quantity_ordered` is a Python `int` `n` — `save` sets
`line_total` to `unit_price * (1 - discount_percentage / 100) * n` and
recomputes the parent purchase order's totals over the saved line item and
its siblings. -/
theorem purchase_line_save_int_ok (it : PurchaseOrderLineItem) (po : PurchaseOrder)
    (siblings : List OrderLine) (n : ℤ) (hq : it.quantity_ordered = .pint n) :
    it.save po siblings =
      some ({ it with line_total := it.unit_price * (1 - it.discount_percentage / 100) * n },
        po.calculate_totals
          ({ line_total := it.unit_price * (1 - it.discount_percentage / 100) * n,
             is_active := true } :: siblings)) := by
  unfold PurchaseOrderLineItem.save
  rw [hq]
  rfl

theorem purchase_line_save_int_ok_witness :
    (PurchaseOrderLineItem.save ⟨.pint 4, 100, 50, 0⟩ ⟨0, 0, 0, 0⟩ []) =
      some (⟨.pint 4, 100, 50, 200⟩,
        (⟨0, 0, 0, 0⟩ : PurchaseOrder).calculate_totals [⟨200, true⟩]) := by
  have h := purchase_line_save_int_ok ⟨.pint 4, 100, 50, 0⟩ ⟨0, 0, 0, 0⟩ [] 4 rfl
  rw [h]
  norm_num

/-! ## HR: `Payroll` (src/hr/models.py) -/

/-- `Payroll` model: earnings, deductions and totals used by
`calculate_salary`. -/
structure Payroll where
  basic_salary : ℚ
  hra : ℚ
  transport_allowance : ℚ
  medical_allowance : ℚ
  special_allowance : ℚ
  overtime_amount : ℚ
  bonus : ℚ
  incentive : ℚ
  pf_employee : ℚ
  pf_employer : ℚ
  esi_employee : ℚ
  esi_employer : ℚ
  professional_tax : ℚ
  income_tax : ℚ
  loan_deduction : ℚ
  other_deductions : ℚ
  gross_salary : ℚ
  total_deductions : ℚ
  net_salary : ℚ
  deriving Repr, DecidableEq

/-- `Payroll.calculate_salary` (src/hr/models.py lines 380-398). -/
def Payroll.calculate_salary (p : Payroll) : Payroll :=
  let gross_salary := p.basic_salary + p.hra + p.transport_allowance +
    p.medical_allowance + p.special_allowance + p.overtime_amount + p.bonus + p.incentive
  let total_deductions := p.pf_employee + p.esi_employee + p.professional_tax +
    p.income_tax + p.loan_deduction + p.other_deductions
  { p with
    gross_salary := gross_salary
    total_deductions := total_deductions
    net_salary := gross_salary - total_deductions }

/-- **C4**: `calculate_salary` sets `gross_salary` to the sum of the eight
earning components, `total_deductions` to the sum of the six employee-side
deductions (the employer contributions `pf_employer` and `esi_employer`
play no part), and `net_salary` to their difference. -/
theorem calculate_salary_components (p : Payroll) :
    (p.calculate_salary).gross_salary =
      p.basic_salary + p.hra + p.transport_allowance + p.medical_allowance +
        p.special_allowance + p.overtime_amount + p.bonus + p.incentive ∧
    (p.calculate_salary).total_deductions =
      p.pf_employee + p.esi_employee + p.professional_tax + p.income_tax +
        p.loan_deduction + p.other_deductions ∧
    (p.calculate_salary).net_salary =
      (p.calculate_salary).gross_salary - (p.calculate_salary).total_deductions ∧
    (∀ q : Payroll, q.pf_employee = p.pf_employee → q.esi_employee = p.esi_employee →
      q.professional_tax = p.professional_tax → q.income_tax = p.income_tax →
      q.loan_deduction = p.loan_deduction → q.other_deductions = p.other_deductions →
      (q.calculate_salary).total_deductions = (p.calculate_salary).total_deductions) :=
  ⟨rfl, rfl, rfl, fun q h1 h2 h3 h4 h5 h6 => by
    simp only [Payroll.calculate_salary, h1, h2, h3, h4, h5, h6]⟩

theorem calculate_salary_components_witness :
    ((⟨1, 2, 3, 4, 5, 6, 7, 8, 10, 999, 20, 999, 30, 40, 50, 60, 0, 0, 0⟩ :
        Payroll).calculate_salary).total_deductions =
      ((⟨1, 2, 3, 4, 5, 6, 7, 8, 10, 0, 20, 0, 30, 40, 50, 60, 0, 0, 0⟩ :
        Payroll).calculate_salary).total_deductions :=
  (calculate_salary_components
      ⟨1, 2, 3, 4, 5, 6, 7, 8, 10, 0, 20, 0, 30, 40, 50, 60, 0, 0, 0⟩).2.2.2
    ⟨1, 2, 3, 4, 5, 6, 7, 8, 10, 999, 20, 999, 30, 40, 50, 60, 0, 0, 0⟩
    rfl rfl rfl rfl rfl rfl

/-! ## Finance: `Account`, `JournalEntry` (src/finance/models.py) -/

/-- `JournalEntry` model: entry type (`DEBIT`/`CREDIT`) and amount. -/
structure JournalEntry where
  entry_type : String
  amount : ℚ
  deriving Repr, DecidableEq

/-- `Account` model: the account-type category and the balances used by
`update_balance`. -/
structure Account where
  category : String
  opening_balance : ℚ
  current_balance : ℚ
  deriving Repr, DecidableEq

/-- Sum of the amounts of this account's journal entries of a given type,
as the `aggregate(total=Sum('amount'))['total'] or 0` query computes it. -/
def entriesTotal (entries : List JournalEntry) (t : String) : ℚ :=
  ((entries.filter (·.entry_type = t)).map (·.amount)).sum

/-- `Account.update_balance` (src/finance/models.py lines 49-66): debit
accounts (`ASSET`, `EXPENSE`) get `opening + debits - credits`, every other
category gets `opening + credits - debits`.  `entries` is the list of this
account's journal entries. -/
def Account.update_balance (a : Account) (entries : List JournalEntry) : Account :=
  let debits := entriesTotal entries "DEBIT"
  let credits := entriesTotal entries "CREDIT"
  if a.category ∈ ["ASSET", "EXPENSE"] then
    { a with current_balance := a.opening_balance + debits - credits }
  else
    { a with current_balance := a.opening_balance + credits - debits }

/-- **C5**: `update_balance` sets `current_balance` to
`opening + debits - credits` for `ASSET`/`EXPENSE` accounts and to
`opening + credits - debits` for every other category; with no journal
entries the balance is the opening balance. -/
theorem update_balance_by_category (a : Account) (entries : List JournalEntry) :
    (a.category ∈ ["ASSET", "EXPENSE"] →
      (a.update_balance entries).current_balance =
        a.opening_balance + entriesTotal entries "DEBIT" - entriesTotal entries "CREDIT") ∧
    (a.category ∉ ["ASSET", "EXPENSE"] →
      (a.update_balance entries).current_balance =
        a.opening_balance + entriesTotal entries "CREDIT" - entriesTotal entries "DEBIT") ∧
    (entries = [] → (a.update_balance entries).current_balance = a.opening_balance) := by
  refine ⟨fun h => ?_, fun h => ?_, fun h => ?_⟩
  · simp [Account.update_balance, h]
  · simp [Account.update_balance, h]
  · subst h
    unfold Account.update_balance entriesTotal
    by_cases hc : a.category ∈ ["ASSET", "EXPENSE"] <;> simp [hc]

theorem update_balance_by_category_witness :
    ((⟨"ASSET", 10, 0⟩ : Account).update_balance
        [⟨"DEBIT", 7⟩, ⟨"CREDIT", 3⟩]).current_balance = 10 + 7 - 3 ∧
    ((⟨"REVENUE", 10, 0⟩ : Account).update_balance
        [⟨"DEBIT", 7⟩, ⟨"CREDIT", 3⟩]).current_balance = 10 + 3 - 7 ∧
    ((⟨"EQUITY", 42, 0⟩ : Account).update_balance []).current_balance = 42 := by
  refine ⟨?_, ?_, ?_⟩
  · have h := (update_balance_by_category ⟨"ASSET", 10, 0⟩
      [⟨"DEBIT", 7⟩, ⟨"CREDIT", 3⟩]).1 (by decide)
    rw [h]; simp +decide [entriesTotal, List.filter]
  · have h := (update_balance_by_category ⟨"REVENUE", 10, 0⟩
      [⟨"DEBIT", 7⟩, ⟨"CREDIT", 3⟩]).2.1 (by decide)
    rw [h]; simp +decide [entriesTotal, List.filter]
  · exact (update_balance_by_category ⟨"EQUITY", 42, 0⟩ []).2.2 rfl

/-! ## Production: `WorkOrder`, `ProductionReport` (src/production/models.py) -/

/-- `WorkOrder` model: the quantity fields of its percentage properties. -/
structure WorkOrder where
  planned_quantity : ℚ
  produced_quantity : ℚ
  rejected_quantity : ℚ
  deriving Repr, DecidableEq

/-- `WorkOrder.completion_percentage` property (src/production/models.py
lines 201-207). -/
def WorkOrder.completion_percentage (w : WorkOrder) : ℚ :=
  if w.planned_quantity > 0 then w.produced_quantity / w.planned_quantity * 100 else 0

/-- `WorkOrder.yield_percentage` property (src/production/models.py lines
209-215). -/
def WorkOrder.yield_percentage (w : WorkOrder) : ℚ :=
  let total_output := w.produced_quantity + w.rejected_quantity
  if total_output > 0 then w.produced_quantity / total_output * 100 else 0

/-- `ProductionReport` model: the fields of `calculate_efficiency`. -/
structure ProductionReport where
  planned_production : ℚ
  actual_production : ℚ
  rejected_quantity : ℚ
  efficiency_percentage : ℚ
  quality_percentage : ℚ
  deriving Repr, DecidableEq

/-- `ProductionReport.calculate_efficiency` (src/production/models.py lines
464-473): each ratio is computed only under its positivity guard; an
unsatisfied guard leaves the corresponding percentage field unchanged. -/
def ProductionReport.calculate_efficiency (r : ProductionReport) : ProductionReport :=
  let r1 := if r.planned_production > 0 then
      { r with efficiency_percentage := r.actual_production / r.planned_production * 100 }
    else r
  let total_output := r1.actual_production + r1.rejected_quantity
  if total_output > 0 then
    { r1 with quality_percentage := r1.actual_production / total_output * 100 }
  else r1

/-- **C7**: every efficiency-ratio computation guards its division:
`completion_percentage` and `yield_percentage` divide only when their
denominator is positive (hence nonzero) and return 0 otherwise, and
`calculate_efficiency` updates `efficiency_percentage` (resp.
`quality_percentage`) only when `planned_production` (resp.
`actual_production + rejected_quantity`) is positive, leaving the field
unchanged otherwise. -/
theorem efficiency_ratios_guarded (w : WorkOrder) (r : ProductionReport) :
    (w.planned_quantity > 0 →
      w.planned_quantity ≠ 0 ∧
      w.completion_percentage = w.produced_quantity / w.planned_quantity * 100) ∧
    (¬ w.planned_quantity > 0 → w.completion_percentage = 0) ∧
    (w.produced_quantity + w.rejected_quantity > 0 →
      w.produced_quantity + w.rejected_quantity ≠ 0 ∧
      w.yield_percentage =
        w.produced_quantity / (w.produced_quantity + w.rejected_quantity) * 100) ∧
    (¬ w.produced_quantity + w.rejected_quantity > 0 → w.yield_percentage = 0) ∧
    (r.planned_production > 0 →
      r.planned_production ≠ 0 ∧
      (r.calculate_efficiency).efficiency_percentage =
        r.actual_production / r.planned_production * 100) ∧
    (¬ r.planned_production > 0 →
      (r.calculate_efficiency).efficiency_percentage = r.efficiency_percentage) ∧
    (r.actual_production + r.rejected_quantity > 0 →
      r.actual_production + r.rejected_quantity ≠ 0 ∧
      (r.calculate_efficiency).quality_percentage =
        r.actual_production / (r.actual_production + r.rejected_quantity) * 100) ∧
    (¬ r.actual_production + r.rejected_quantity > 0 →
      (r.calculate_efficiency).quality_percentage = r.quality_percentage) := by
  refine ⟨fun h => ⟨ne_of_gt h, ?_⟩, fun h => ?_, fun h => ⟨ne_of_gt h, ?_⟩, fun h => ?_,
    fun h => ⟨ne_of_gt h, ?_⟩, fun h => ?_, fun h => ⟨ne_of_gt h, ?_⟩, fun h => ?_⟩
  · simp [WorkOrder.completion_percentage, h]
  · simp [WorkOrder.completion_percentage, h]
  · simp [WorkOrder.yield_percentage, h]
  · simp [WorkOrder.yield_percentage, h]
  · by_cases ht : r.actual_production + r.rejected_quantity > 0 <;>
      simp [ProductionReport.calculate_efficiency, h, ht]
  · by_cases ht : r.actual_production + r.rejected_quantity > 0 <;>
      simp [ProductionReport.calculate_efficiency, h, ht]
  · by_cases hp : r.planned_production > 0 <;>
      simp [ProductionReport.calculate_efficiency, hp, h]
  · by_cases hp : r.planned_production > 0 <;>
      simp [ProductionReport.calculate_efficiency, hp, h]

theorem efficiency_ratios_guarded_witness :
    ((⟨0, 5, 1⟩ : WorkOrder).completion_percentage = 0) ∧
    ((⟨10, 5, 0⟩ : WorkOrder).completion_percentage = 5 / 10 * 100) ∧
    ((⟨0, 0, 0, 33, 44⟩ : ProductionReport).calculate_efficiency).efficiency_percentage
      = 33 ∧
    ((⟨0, 0, 0, 33, 44⟩ : ProductionReport).calculate_efficiency).quality_percentage
      = 44 := by
  refine ⟨?_, ?_, ?_, ?_⟩
  · exact (efficiency_ratios_guarded ⟨0, 5, 1⟩ ⟨0, 0, 0, 33, 44⟩).2.1 (by norm_num)
  · exact ((efficiency_ratios_guarded ⟨10, 5, 0⟩ ⟨0, 0, 0, 33, 44⟩).1 (by norm_num)).2
  · exact (efficiency_ratios_guarded ⟨10, 5, 0⟩ ⟨0, 0, 0, 33, 44⟩).2.2.2.2.2.1
      (by norm_num)
  · exact (efficiency_ratios_guarded ⟨10, 5, 0⟩ ⟨0, 0, 0, 33, 44⟩).2.2.2.2.2.2.2
      (by norm_num)

/-! ## Finance: `FixedAsset` depreciation (src/finance/models.py)

`calculate_depreciation` compares Python `date`s and counts the whole
months elapsed via `dateutil.relativedelta(as_of_date, purchase_date)`.
Dates are embedded as year/month/day triples ordered chronologically
(lexicographically); `monthsBetween` models the external library
`dateutil.relativedelta`: the number of whole calendar months from `b` to
`a` (for `b ≤ a`), i.e. the largest `m` with `b` plus `m` calendar months
(day-of-month clamped to the month length) not after `a`.  That equals the
month-grid difference, minus one when `a`'s day-of-month has not yet
reached `b`'s (clamped) day-of-month. -/

/-- A calendar date, ordered lexicographically (Python `datetime.date`
order). All fields are integers; `valid` pins down real dates. -/
structure Date where
  year : ℤ
  month : ℤ
  day : ℤ
  deriving Repr, DecidableEq

/-- Gregorian leap year. -/
def isLeap (y : ℤ) : Bool := (y % 4 == 0 && y % 100 != 0) || (y % 400 == 0)

/-- Number of days of month `m` of year `y`. -/
def daysInMonth (y m : ℤ) : ℤ :=
  if m = 2 then (if isLeap y then 29 else 28)
  else if m = 4 ∨ m = 6 ∨ m = 9 ∨ m = 11 then 30
  else 31

/-- A real calendar date: month in 1..12, day in 1..days-of-month. -/
def Date.valid (d : Date) : Prop :=
  1 ≤ d.month ∧ d.month ≤ 12 ∧ 1 ≤ d.day ∧ d.day ≤ daysInMonth d.year d.month

instance (d : Date) : Decidable d.valid := by unfold Date.valid; infer_instance

/-- Chronological (lexicographic) order on dates, Python `a <= b`. -/
def Date.le (a b : Date) : Prop :=
  a.year < b.year ∨ (a.year = b.year ∧
    (a.month < b.month ∨ (a.month = b.month ∧ a.day ≤ b.day)))

instance (a b : Date) : Decidable (Date.le a b) := by unfold Date.le; infer_instance

/-- Whole calendar months from `b` to `a` (for `b ≤ a`), as
`dateutil.relativedelta(a, b)` computes `years * 12 + months`: the
month-grid difference, minus one when `a.day` is still short of `b.day`
clamped to the length of `a`'s month. -/
def monthsBetween (a b : Date) : ℤ :=
  if a.day < min b.day (daysInMonth a.year a.month) then
    12 * (a.year - b.year) + (a.month - b.month) - 1
  else
    12 * (a.year - b.year) + (a.month - b.month)

/-- `FixedAsset` model: the fields used by `annual_depreciation` and
`calculate_depreciation`. -/
structure FixedAsset where
  purchase_date : Date
  purchase_cost : ℚ
  salvage_value : ℚ
  useful_life_years : ℕ
  depreciation_method : String
  deriving Repr, DecidableEq

/-- `FixedAsset.annual_depreciation` property (src/finance/models.py lines
393-398). -/
def FixedAsset.annual_depreciation (a : FixedAsset) : ℚ :=
  if a.depreciation_method = "STRAIGHT_LINE" then
    (a.purchase_cost - a.salvage_value) / (a.useful_life_years : ℚ)
  else 0

/-- `FixedAsset.calculate_depreciation` (src/finance/models.py lines
400-424). -/
def FixedAsset.calculate_depreciation (a : FixedAsset) (as_of_date : Date) : ℚ :=
  if Date.le as_of_date a.purchase_date then 0
  else
    let total_months := monthsBetween as_of_date a.purchase_date
    let total_useful_months : ℤ := (a.useful_life_years : ℤ) * 12
    if total_months ≥ total_useful_months then a.purchase_cost - a.salvage_value
    else if a.depreciation_method = "STRAIGHT_LINE" then
      a.annual_depreciation / 12 * (total_months : ℚ)
    else 0

/-! ### Calendar lemmas -/

theorem daysInMonth_bounds (y m : ℤ) : 28 ≤ daysInMonth y m ∧ daysInMonth y m ≤ 31 := by
  unfold daysInMonth
  split_ifs <;> norm_num

theorem date_le_trans {a b c : Date} (h1 : Date.le a b) (h2 : Date.le b c) :
    Date.le a c := by
  unfold Date.le at h1 h2 ⊢
  omega

/-- Months elapsed are non-negative once the start date is strictly past. -/
theorem monthsBetween_nonneg (a b : Date) (ha : a.valid) (hb : b.valid)
    (h : ¬ Date.le a b) : 0 ≤ monthsBetween a b := by
  obtain ⟨ham1, ham2, had1, had2⟩ := ha
  obtain ⟨hbm1, hbm2, hbd1, hbd2⟩ := hb
  unfold Date.le at h
  unfold monthsBetween
  by_cases hym : a.year = b.year ∧ a.month = b.month
  · have hdim : daysInMonth a.year a.month = daysInMonth b.year b.month := by
      rw [hym.1, hym.2]
    split <;> omega
  · split <;> omega

/-- Months elapsed from a fixed start are monotone in the end date. -/
theorem monthsBetween_mono (b a a' : Date) (ha : a.valid) (ha' : a'.valid)
    (h : Date.le a a') : monthsBetween a b ≤ monthsBetween a' b := by
  obtain ⟨ham1, ham2, had1, had2⟩ := ha
  obtain ⟨ham1', ham2', had1', had2'⟩ := ha'
  unfold Date.le at h
  unfold monthsBetween
  by_cases hym : a.year = a'.year ∧ a.month = a'.month
  · have hdim : daysInMonth a.year a.month = daysInMonth a'.year a'.month := by
      rw [hym.1, hym.2]
    split <;> split <;> omega
  · split <;> split <;> omega

/-! ### Depreciation lemmas -/

/-- The monthly straight-line depreciation applied over the full useful
life recovers the whole depreciable base. -/
theorem monthly_times_life (base : ℚ) (years : ℕ) (hy : 0 < years) :
    base / (years : ℚ) / 12 * (((years : ℤ) * 12 : ℤ) : ℚ) = base := by
  have hne : ((years : ℚ)) ≠ 0 :=
    ne_of_gt (show (0 : ℚ) < (years : ℚ) by exact_mod_cast hy)
  push_cast
  field_simp

/-- Straight-line depreciation never exceeds the depreciable base. -/
theorem depreciation_le_base (a : FixedAsset) (d : Date)
    (hm : a.depreciation_method = "STRAIGHT_LINE") (hy : 0 < a.useful_life_years)
    (hs : a.salvage_value ≤ a.purchase_cost)
    (hvp : a.purchase_date.valid) (hvd : d.valid) :
    a.calculate_depreciation d ≤ a.purchase_cost - a.salvage_value := by
  have hbase : (0 : ℚ) ≤ a.purchase_cost - a.salvage_value := by linarith
  have hyq : (0 : ℚ) < (a.useful_life_years : ℚ) := by exact_mod_cast hy
  have hmon : (0 : ℚ) ≤ (a.purchase_cost - a.salvage_value) / (a.useful_life_years : ℚ) / 12 :=
    div_nonneg (div_nonneg hbase (le_of_lt hyq)) (by norm_num)
  unfold FixedAsset.calculate_depreciation FixedAsset.annual_depreciation
  simp only [hm, if_pos rfl]
  split_ifs with h1 h2
  · exact hbase
  · exact le_refl _
  · have h0m : 0 ≤ monthsBetween d a.purchase_date :=
      monthsBetween_nonneg d a.purchase_date hvd hvp h1
    have hmM : ((monthsBetween d a.purchase_date : ℤ) : ℚ) ≤
        (((a.useful_life_years : ℤ) * 12 : ℤ) : ℚ) := by
      exact_mod_cast le_of_lt (not_le.mp h2)
    calc (a.purchase_cost - a.salvage_value) / (a.useful_life_years : ℚ) / 12 *
          ((monthsBetween d a.purchase_date : ℤ) : ℚ)
        ≤ (a.purchase_cost - a.salvage_value) / (a.useful_life_years : ℚ) / 12 *
          (((a.useful_life_years : ℤ) * 12 : ℤ) : ℚ) :=
          mul_le_mul_of_nonneg_left hmM hmon
      _ = a.purchase_cost - a.salvage_value :=
          monthly_times_life (a.purchase_cost - a.salvage_value) a.useful_life_years hy

/-- Straight-line depreciation is monotone in the as-of date. -/
theorem depreciation_mono (a : FixedAsset) (d d' : Date)
    (hm : a.depreciation_method = "STRAIGHT_LINE") (hy : 0 < a.useful_life_years)
    (hs : a.salvage_value ≤ a.purchase_cost)
    (hvp : a.purchase_date.valid) (hvd : d.valid) (hvd' : d'.valid)
    (h : Date.le d d') :
    a.calculate_depreciation d ≤ a.calculate_depreciation d' := by
  have hbase : (0 : ℚ) ≤ a.purchase_cost - a.salvage_value := by linarith
  have hyq : (0 : ℚ) < (a.useful_life_years : ℚ) := by exact_mod_cast hy
  have hmon : (0 : ℚ) ≤ (a.purchase_cost - a.salvage_value) / (a.useful_life_years : ℚ) / 12 :=
    div_nonneg (div_nonneg hbase (le_of_lt hyq)) (by norm_num)
  by_cases h1 : Date.le d a.purchase_date
  · -- before (or at) purchase: the value at `d` is 0, and every value is
    -- non-negative
    have hz : a.calculate_depreciation d = 0 := by
      unfold FixedAsset.calculate_depreciation
      simp only [h1, if_pos]
    rw [hz]
    unfold FixedAsset.calculate_depreciation FixedAsset.annual_depreciation
    simp only [hm, if_pos rfl]
    split_ifs with g1 g2
    · exact le_refl 0
    · exact hbase
    · have h0m : 0 ≤ monthsBetween d' a.purchase_date :=
        monthsBetween_nonneg d' a.purchase_date hvd' hvp g1
      have : (0 : ℚ) ≤ ((monthsBetween d' a.purchase_date : ℤ) : ℚ) := by exact_mod_cast h0m
      exact mul_nonneg hmon this
  · have h1' : ¬ Date.le d' a.purchase_date := fun hcon => h1 (date_le_trans h hcon)
    have h0m : 0 ≤ monthsBetween d a.purchase_date :=
      monthsBetween_nonneg d a.purchase_date hvd hvp h1
    have hmm : monthsBetween d a.purchase_date ≤ monthsBetween d' a.purchase_date :=
      monthsBetween_mono a.purchase_date d d' hvd hvd' h
    unfold FixedAsset.calculate_depreciation FixedAsset.annual_depreciation
    simp only [hm, if_pos rfl, h1, h1', if_false]
    split_ifs with g1 g2 g3
    · exact le_refl _
    · omega
    · -- still short of the full life at `d`, full base at `d'`
      have hmM : ((monthsBetween d a.purchase_date : ℤ) : ℚ) ≤
          (((a.useful_life_years : ℤ) * 12 : ℤ) : ℚ) := by
        exact_mod_cast le_of_lt (not_le.mp g1)
      calc (a.purchase_cost - a.salvage_value) / (a.useful_life_years : ℚ) / 12 *
            ((monthsBetween d a.purchase_date : ℤ) : ℚ)
          ≤ (a.purchase_cost - a.salvage_value) / (a.useful_life_years : ℚ) / 12 *
            (((a.useful_life_years : ℤ) * 12 : ℤ) : ℚ) :=
            mul_le_mul_of_nonneg_left hmM hmon
        _ = a.purchase_cost - a.salvage_value :=
            monthly_times_life (a.purchase_cost - a.salvage_value) a.useful_life_years hy
    · have : ((monthsBetween d a.purchase_date : ℤ) : ℚ) ≤
          ((monthsBetween d' a.purchase_date : ℤ) : ℚ) := by exact_mod_cast hmm
      exact mul_le_mul_of_nonneg_left this hmon

/-- **C3**: for a `STRAIGHT_LINE` asset with positive useful life and
`salvage_value ≤ purchase_cost`, `calculate_depreciation(as_of_date)`
returns 0 up to the purchase date, the full depreciable base once the whole
months elapsed reach `useful_life_years * 12`, and otherwise
`(purchase_cost - salvage_value) / useful_life_years / 12` times the whole
months elapsed; the result is monotone in the as-of date and never exceeds
`purchase_cost - salvage_value`. -/
theorem calculate_depreciation_straight_line (a : FixedAsset) (d : Date)
    (hm : a.depreciation_method = "STRAIGHT_LINE") (hy : 0 < a.useful_life_years)
    (hs : a.salvage_value ≤ a.purchase_cost)
    (hvp : a.purchase_date.valid) (hvd : d.valid) :
    (Date.le d a.purchase_date → a.calculate_depreciation d = 0) ∧
    (¬ Date.le d a.purchase_date →
      monthsBetween d a.purchase_date ≥ (a.useful_life_years : ℤ) * 12 →
      a.calculate_depreciation d = a.purchase_cost - a.salvage_value) ∧
    (¬ Date.le d a.purchase_date →
      monthsBetween d a.purchase_date < (a.useful_life_years : ℤ) * 12 →
      a.calculate_depreciation d =
        (a.purchase_cost - a.salvage_value) / (a.useful_life_years : ℚ) / 12 *
          ((monthsBetween d a.purchase_date : ℤ) : ℚ)) ∧
    (∀ d' : Date, d'.valid → Date.le d d' →
      a.calculate_depreciation d ≤ a.calculate_depreciation d') ∧
    a.calculate_depreciation d ≤ a.purchase_cost - a.salvage_value := by
  refine ⟨fun h => ?_, fun h1 h2 => ?_, fun h1 h2 => ?_, fun d' hvd' h => ?_, ?_⟩
  · unfold FixedAsset.calculate_depreciation
    simp only [h, if_pos]
  · unfold FixedAsset.calculate_depreciation
    simp only [h1, if_false, h2, ge_iff_le, if_pos]
  · unfold FixedAsset.calculate_depreciation FixedAsset.annual_depreciation
    simp [hm, h1, not_le.mpr h2]
  · exact depreciation_mono a d d' hm hy hs hvp hvd hvd' h
  · exact depreciation_le_base a d hm hy hs hvp hvd

theorem calculate_depreciation_straight_line_witness :
    (⟨⟨2020, 1, 15⟩, 1200, 200, 5, "STRAIGHT_LINE"⟩ :
      FixedAsset).calculate_depreciation ⟨2021, 1, 15⟩ = 200 := by
  have h := (calculate_depreciation_straight_line
      ⟨⟨2020, 1, 15⟩, 1200, 200, 5, "STRAIGHT_LINE"⟩ ⟨2021, 1, 15⟩
      rfl (by norm_num) (by norm_num) (by decide) (by decide)).2.2.1
    (by decide) (by decide)
  have h12 : monthsBetween ⟨2021, 1, 15⟩ ⟨2020, 1, 15⟩ = 12 := by decide
  rw [h12] at h
  rw [h]
  norm_num

end ERP
